import Mathlib

/-!
Verification of `src/session_2/flash_attention.py`: a Triton flash-attention
kernel (causal, with online softmax) together with its host-side
`FlashAttention.forward` / `FlashAttention.backward` driver.

Shallow embedding conventions:
* tensors are index-level: a 4-d tensor is its dimension tuple, its stride
  tuple (layout metadata, used only by the assertions the host code makes),
  and a total real-valued data function; only indices below the dimensions
  are meaningful;
* floating-point arithmetic is modelled as exact real arithmetic; the one
  float-specific artefact the kernel relies on, the initial running max
  `-float('inf')` (line 345), is modelled by `Option ℝ` with `none` for the
  IEEE value `-inf` (so `max(-inf, x) = x` and `exp(-inf - x) = 0`);
* Python runtime errors are modelled with `Except PyErr`.
-/

/-- Python exception kinds raised by the code under study. -/
inductive PyErr where
  | assertionError : PyErr
  | typeError : PyErr
  | attributeError : PyErr
deriving DecidableEq

/-- A rank-4 tensor of shape `(batch, heads, seqLen, headDim)`.  `strides` is
the per-axis stride tuple (layout metadata used by the host-side assertions);
`data` is the logical contents, a total function of the four indices. -/
structure Tensor4 where
  batch : ℕ
  heads : ℕ
  seqLen : ℕ
  headDim : ℕ
  strides : ℕ × ℕ × ℕ × ℕ
  data : ℕ → ℕ → ℕ → ℕ → ℝ

/-- A rank-3 tensor of shape `(batch, heads, seqLen)` (used for `M` and `D`). -/
structure Tensor3 where
  batch : ℕ
  heads : ℕ
  seqLen : ℕ
  strides : ℕ × ℕ × ℕ
  data : ℕ → ℕ → ℕ → ℝ

/-- `t.is_contiguous()`: the strides are the row-major contiguous strides of
the dimensions. -/
def Tensor4.isContiguous (t : Tensor4) : Bool :=
  decide (t.strides =
    (t.heads * t.seqLen * t.headDim, t.seqLen * t.headDim, t.headDim, 1))

/-- The dimension tuple, i.e. the Python `t.shape`. -/
def Tensor4.dims (t : Tensor4) : ℕ × ℕ × ℕ × ℕ :=
  (t.batch, t.heads, t.seqLen, t.headDim)

/-- The finite masking sentinel: `inf = 1.0e6` (line 274 of the kernel). -/
def fwdInf : ℝ := 1000000

/-- One entry of the masked score block `S_block` (lines 376-380):
`tl.dot(Q_block, K_block) * softmax_scale + tl.where(causal_mask, 0, -inf)`,
for query row `i` and key column `j` of batch `b`, head `h`.  The causal mask
(line 366) is `offs_q >= start_kv_idx + offs_kv`, i.e. `j ≤ i`; the dot
product runs over `HEAD_DIM`, which the host passes as `Q.shape[-1]`. -/
noncomputable def attnScore (Q K : Tensor4) (scale : ℝ) (b h i j : ℕ) : ℝ :=
  (∑ d ∈ Finset.range Q.headDim, Q.data b h i d * K.data b h j d) * scale
    + (if j ≤ i then 0 else -fwdInf)

/-- The raw scaled score without the causal mask term: one entry of
`Q @ K^T * softmax_scale` (used by the reference computation in `test_op`,
lines 453-457, where masking is done with true `-inf`). -/
noncomputable def rawScore (Q K : Tensor4) (scale : ℝ) (b h i j : ℕ) : ℝ :=
  (∑ d ∈ Finset.range Q.headDim, Q.data b h i d * K.data b h j d) * scale

/-- Per-query-row state of the online-softmax inner loop of `_attn_fwd`:
the running max `s_max` (line 345, initialised to `-float('inf')`, modelled
as `none`), the running denominator `softmax_denom` (line 348) and the
output accumulator row `O_block` (line 351). -/
structure FwdState where
  sMax : Option ℝ
  denom : ℝ
  acc : ℕ → ℝ

/-- Initial loop state (lines 345-351): `s_max = -inf`, `softmax_denom = 0`,
`O_block = 0`. -/
noncomputable def attnFwdInit : FwdState :=
  { sMax := none, denom := 0, acc := fun _ => 0 }

/-- IEEE `maximum` against the running max: `max(-inf, x) = x`. -/
noncomputable def tritonMax (m : Option ℝ) (x : ℝ) : ℝ :=
  match m with
  | none => x
  | some v => max v x

/-- IEEE `exp` of the difference against the running max:
`exp(-inf - x) = 0` (the corrective factor of line 387 on the first
iteration). -/
noncomputable def tritonExpDiff (m : Option ℝ) (x : ℝ) : ℝ :=
  match m with
  | none => 0
  | some v => Real.exp (v - x)

/-- The row max of the masked score block, `tl.max(S_block, axis=1)`
(line 383).  The index set is written `insert 0 (range Bkv)` so the
definition is total; for any positive `BLOCK_SIZE_KV` it is exactly the max
over the `Bkv` lanes of the block. -/
noncomputable def attnLocalMax (Q K : Tensor4) (scale : ℝ) (Bkv b h i startKV : ℕ) : ℝ :=
  (insert 0 (Finset.range Bkv)).sup' (Finset.insert_nonempty 0 _)
    (fun jj => attnScore Q K scale b h i (startKV + jj))

/-- One iteration of the inner loop of `_attn_fwd` (lines 365-406) for query
row `i`, processing the key/value block starting at column `startKV`:
new max (line 384), corrective factor (line 387), `P_block` (line 390),
denominator update (lines 393-398), accumulator update (lines 402-403),
running-max update (line 406). -/
noncomputable def attnFwdStep (Q K V : Tensor4) (scale : ℝ) (Bkv b h i : ℕ)
    (st : FwdState) (startKV : ℕ) : FwdState :=
  let newMax := tritonMax st.sMax (attnLocalMax Q K scale Bkv b h i startKV)
  let corr := tritonExpDiff st.sMax newMax
  { sMax := some newMax
    denom := corr * st.denom +
      ∑ jj ∈ Finset.range Bkv, Real.exp (attnScore Q K scale b h i (startKV + jj) - newMax)
    acc := fun d => st.acc d * corr +
      ∑ jj ∈ Finset.range Bkv,
        Real.exp (attnScore Q K scale b h i (startKV + jj) - newMax) *
          V.data b h (startKV + jj) d }

/-- The ascending sequence of key/value block start offsets visited by the
inner loop, `tl.range(0, end_key_idx, BLOCK_SIZE_KV)` (line 365): the
multiples of `Bkv` below `endKeyIdx`, in order. -/
def kvStarts (endKeyIdx Bkv : ℕ) : List ℕ :=
  (List.range ((endKeyIdx + Bkv - 1) / Bkv)).map (fun a => a * Bkv)

/-- The inner loop of `_attn_fwd` run for the first `n` key/value blocks
(block `a` starts at column `a * Bkv`). -/
noncomputable def attnFwdLoopN (Q K V : Tensor4) (scale : ℝ) (Bkv b h i n : ℕ) : FwdState :=
  ((List.range n).map (fun a => a * Bkv)).foldl
    (attnFwdStep Q K V scale Bkv b h i) attnFwdInit

/-- The final loop state for query row `i`: the row belongs to query block
`i / Bq`, whose loop bound is `end_key_idx = (query_block_idx + 1) *
BLOCK_SIZE_Q` (line 364). -/
noncomputable def attnFwdState (Q K V : Tensor4) (scale : ℝ) (Bq Bkv b h i : ℕ) : FwdState :=
  (kvStarts ((i / Bq + 1) * Bq) Bkv).foldl
    (attnFwdStep Q K V scale Bkv b h i) attnFwdInit

/-- The output value `_attn_fwd` stores at `O[b, h, i, d]`: the accumulator
normalised by the denominator (line 413). -/
noncomputable def attnO (Q K V : Tensor4) (scale : ℝ) (Bq Bkv b h i d : ℕ) : ℝ :=
  (attnFwdState Q K V scale Bq Bkv b h i).acc d /
    (attnFwdState Q K V scale Bq Bkv b h i).denom

/-- The log-normaliser `_attn_fwd` stores at `M[b, h, i]`:
`s_max + log(softmax_denom)` (lines 420-423).  After at least one loop
iteration the running max is a real number, so the `Option` default is never
read for positive block sizes. -/
noncomputable def attnM (Q K V : Tensor4) (scale : ℝ) (Bq Bkv b h i : ℕ) : ℝ :=
  (attnFwdState Q K V scale Bq Bkv b h i).sMax.getD 0 +
    Real.log (attnFwdState Q K V scale Bq Bkv b h i).denom

/-- A Python value, as far as the return values of this module are concerned:
`FlashAttention.forward` returns a single tensor (line 64), a hypothetical
pair return would be a `tuple`, and a Python function that falls off the end
of its body returns `None`. -/
inductive PyVal where
  | tensor4 : Tensor4 → PyVal
  | tuple : PyVal → PyVal → PyVal
  | pyNone : PyVal

/-- Whether a Python value is a 2-tuple. -/
def PyVal.isTuple : PyVal → Bool
  | PyVal.tuple _ _ => true
  | _ => false

/-- The autograd context populated by `forward` (lines 61-63):
`ctx.save_for_backward(Q, K, V, O, M)` and `ctx.softmax_scale`.  Note that
`forward` never assigns `ctx.head_dim`, which `backward` reads at line 133. -/
structure AutogradCtx where
  savedQ : Tensor4
  savedK : Tensor4
  savedV : Tensor4
  savedO : Tensor4
  savedM : Tensor3
  softmaxScale : ℝ

/-- What a call to `FlashAttention.forward` produces on success: the value
returned to the caller (line 64: `return O` — a single tensor) and the
populated autograd context. -/
structure FwdOut where
  ret : PyVal
  ctx : AutogradCtx

/-- The `O` tensor produced by the forward launch: `torch.empty_like(Q)`
(line 12, hence Q's dims and strides) filled by the `_attn_fwd` grid — the
instance with `query_block_idx = i / Bq` writes row `i`. -/
noncomputable def forwardO (Q K V : Tensor4) (scale : ℝ) (Bq Bkv : ℕ) : Tensor4 :=
  { Q with data := fun b h i d => attnO Q K V scale Bq Bkv b h i d }

/-- The `M` tensor produced by the forward launch: `torch.zeros((batch,
num_heads, seq_len))` (line 13, contiguous strides) filled by the `_attn_fwd`
grid (lines 420-423); every row below `seq_len` is written. -/
noncomputable def forwardM (Q K V : Tensor4) (scale : ℝ) (Bq Bkv : ℕ) : Tensor3 :=
  { batch := Q.batch, heads := Q.heads, seqLen := Q.seqLen
    strides := (Q.heads * Q.seqLen, Q.seqLen, 1)
    data := fun b h i => attnM Q K V scale Bq Bkv b h i }

/-- The head-dimension assertion of `forward` (lines 8-9):
`assert HEAD_DIM_Q == HEAD_DIM_K and HEAD_DIM_K == HEAD_DIM_V`.  This is the
only shape check `forward` makes. -/
def headDimAssert (Q K V : Tensor4) : Bool :=
  decide (Q.headDim = K.headDim) && decide (K.headDim = V.headDim)

/-- Successful result of `forward` (lines 11-64): the kernel-filled `O` is
returned; `Q, K, V, O, M` and the scale are stashed in the context. -/
noncomputable def forwardOut (Q K V : Tensor4) (scale : ℝ) (Bq Bkv : ℕ) : FwdOut :=
  { ret := PyVal.tensor4 (forwardO Q K V scale Bq Bkv)
    ctx := { savedQ := Q, savedK := K, savedV := V
             savedO := forwardO Q K V scale Bq Bkv
             savedM := forwardM Q K V scale Bq Bkv
             softmaxScale := scale } }

/-- `FlashAttention.forward` (lines 7-64).  `Bq`/`Bkv` are the autotuned
block sizes (`BLOCK_SIZE_Q`, `BLOCK_SIZE_KV`), a configuration input to the
launch.  A failed assertion aborts the call before any allocation or kernel
launch. -/
noncomputable def FlashAttention.forward (Q K V : Tensor4) (scale : ℝ)
    (Bq Bkv : ℕ) : Except PyErr FwdOut :=
  if headDimAssert Q K V then Except.ok (forwardOut Q K V scale Bq Bkv)
  else Except.error PyErr.assertionError

/-- The assertions of `backward` (lines 76-77): `assert dO.is_contiguous()`
and the chained `assert Q.stride() == K.stride() == V.stride() == O.stride()
== dO.stride()`. -/
def bwdAsserts (ctx : AutogradCtx) (dO : Tensor4) : Bool :=
  dO.isContiguous &&
    (decide (ctx.savedQ.strides = ctx.savedK.strides) &&
      decide (ctx.savedK.strides = ctx.savedV.strides) &&
      decide (ctx.savedV.strides = ctx.savedO.strides) &&
      decide (ctx.savedO.strides = dO.strides))

/-- Line 85, `HEAD_DIM_KV = Q.shape(3)`: `Q.shape` is a `torch.Size`, which
is not callable, so evaluating this expression raises `TypeError`
unconditionally. -/
def sizeCall (dims : ℕ × ℕ × ℕ × ℕ) (i : ℕ) : Except PyErr ℕ :=
  Except.error PyErr.typeError

/-- `FlashAttention.backward` (lines 66-135).  After the stride assertions
pass and `dQ`, `dK`, `dV`, `D` are allocated (`torch.empty_like`, no values
written), line 85 evaluates `Q.shape(3)` and raises; everything after —
the `_attn_bwd_preprocess` launch, the dK/dV grid whose expression
`triton.cdiv(SEQ_LEN, 'BLOCK_SIZE_SEQ')` divides an int by a string, the
`ctx.head_dim` read (never assigned by `forward`), and the `_attn_bwd_dk_dv`
stub — is unreachable, and the body has no `return` statement (line 135 is
`# TODO`), so a non-raising run would return `None`. -/
noncomputable def FlashAttention.backward (ctx : AutogradCtx) (dO : Tensor4) :
    Except PyErr PyVal :=
  if bwdAsserts ctx dO then
    (sizeCall ctx.savedQ.dims 3).bind (fun _HEAD_DIM_KV => Except.ok PyVal.pyNone)
  else Except.error PyErr.assertionError

/-- The value `Di_block[i]` computed by `_attn_bwd_preprocess`
(lines 192-204) for row `i` of batch `b`, head `h`.  Both block loads are
`tl.load(offs_o)` with the same offset tensor `offs_o` (built from O's
strides; no base pointer is added), so `dO_block` is the same data as
`O_block`: reading the offsets as O-relative, the kernel computes
`rowsum(O * O)` and never reads `dO`. -/
noncomputable def attnBwdPreprocessVal (O dO : Tensor4) (HEAD_DIM b h i : ℕ) : ℝ :=
  let O_block := fun d => O.data b h i d
  let dO_block := fun d => O.data b h i d
  ∑ d ∈ Finset.range HEAD_DIM, O_block d * dO_block d

/-- The flat offset at which `_attn_bwd_preprocess` stores `Di_block[i]`
(lines 205-209): `batch_idx * stride_D_batch + batch_head_idx *
stride_D_head + offs_seq` — note the `batch_head_idx = b * NUM_HEADS + h`
factor where the head index should be. -/
def attnBwdPreprocessStoreOff (strideDbatch strideDhead NUM_HEADS b h i : ℕ) : ℕ :=
  b * strideDbatch + (b * NUM_HEADS + h) * strideDhead + i

/-- The flat offset of entry `(b, h, i)` of a rank-3 tensor with the given
batch/head strides (sequence stride 1): where a row-`i` value for batch `b`,
head `h` belongs. -/
def offset3 (strideBatch strideHead b h i : ℕ) : ℕ :=
  b * strideBatch + h * strideHead + i

/-- The reference computation of `test_op` (lines 453-457) /
spec section 8, written from the spec's words: causally masked scores with
true `-inf` masking, so row `i` of the output is the softmax-weighted
aggregation of value rows `j ≤ i` only. -/
noncomputable def refAttnO (Q K V : Tensor4) (scale : ℝ) (b h i d : ℕ) : ℝ :=
  (∑ j ∈ Finset.range (i + 1), Real.exp (rawScore Q K scale b h i j) * V.data b h j d) /
    (∑ j ∈ Finset.range (i + 1), Real.exp (rawScore Q K scale b h i j))

/-- Ceiling-division bound used by `kvStarts`: membership of a multiple. -/
lemma lt_ceilDiv_iff (B e m : ℕ) (hB : 0 < B) :
    m < (e + B - 1) / B ↔ m * B < e := by
  rw [Nat.lt_iff_add_one_le, Nat.le_div_iff_mul_le hB, Nat.succ_mul]
  omega

lemma attnFwdLoopN_zero (Q K V : Tensor4) (scale : ℝ) (Bkv b h i : ℕ) :
    attnFwdLoopN Q K V scale Bkv b h i 0 = attnFwdInit := rfl

lemma attnFwdLoopN_succ (Q K V : Tensor4) (scale : ℝ) (Bkv b h i n : ℕ) :
    attnFwdLoopN Q K V scale Bkv b h i (n + 1) =
      attnFwdStep Q K V scale Bkv b h i
        (attnFwdLoopN Q K V scale Bkv b h i n) (n * Bkv) := by
  unfold attnFwdLoopN
  rw [List.range_succ, List.map_append, List.foldl_append]
  simp

/-- The online-softmax recurrence telescopes exactly: after `n + 1` blocks
the state holds, for some running max `m`, the sum of the shifted
exponentials of all visited scores and the matching value-weighted
accumulator.  This is the heart of `_attn_fwd`. -/
lemma attnFwdLoopN_spec (Q K V : Tensor4) (scale : ℝ) (Bkv b h i : ℕ) (n : ℕ) :
    ∃ m : ℝ, (attnFwdLoopN Q K V scale Bkv b h i (n + 1)).sMax = some m ∧
      (attnFwdLoopN Q K V scale Bkv b h i (n + 1)).denom =
        ∑ j ∈ Finset.range ((n + 1) * Bkv), Real.exp (attnScore Q K scale b h i j - m) ∧
      ∀ d, (attnFwdLoopN Q K V scale Bkv b h i (n + 1)).acc d =
        ∑ j ∈ Finset.range ((n + 1) * Bkv),
          Real.exp (attnScore Q K scale b h i j - m) * V.data b h j d := by
  induction n with
  | zero =>
    rw [attnFwdLoopN_succ, attnFwdLoopN_zero]
    refine ⟨_, rfl, ?_, ?_⟩
    · simp [attnFwdStep, attnFwdInit, tritonExpDiff]
    · intro d
      simp [attnFwdStep, attnFwdInit, tritonExpDiff]
  | succ n ih =>
    obtain ⟨m, hs, hd, ha⟩ := ih
    rw [attnFwdLoopN_succ]
    set st := attnFwdLoopN Q K V scale Bkv b h i (n + 1) with hst
    set lm := attnLocalMax Q K scale Bkv b h i ((n + 1) * Bkv) with hlm
    refine ⟨max m lm, ?_, ?_, ?_⟩
    · simp [attnFwdStep, hs, tritonMax]
    · show tritonExpDiff st.sMax (tritonMax st.sMax lm) * st.denom +
          (∑ jj ∈ Finset.range Bkv,
            Real.exp (attnScore Q K scale b h i ((n + 1) * Bkv + jj) -
              tritonMax st.sMax lm)) = _
      rw [hs, hd]
      show Real.exp (m - max m lm) *
          (∑ j ∈ Finset.range ((n + 1) * Bkv),
            Real.exp (attnScore Q K scale b h i j - m)) + _ = _
      rw [Finset.mul_sum]
      rw [show (n + 1 + 1) * Bkv = (n + 1) * Bkv + Bkv by ring, Finset.sum_range_add]
      congr 1
      refine Finset.sum_congr rfl (fun j _ => ?_)
      rw [← Real.exp_add]
      congr 1
      ring
    · intro d
      show st.acc d * tritonExpDiff st.sMax (tritonMax st.sMax lm) +
          (∑ jj ∈ Finset.range Bkv,
            Real.exp (attnScore Q K scale b h i ((n + 1) * Bkv + jj) -
              tritonMax st.sMax lm) * V.data b h ((n + 1) * Bkv + jj) d) = _
      rw [ha d, hs]
      show (∑ j ∈ Finset.range ((n + 1) * Bkv),
            Real.exp (attnScore Q K scale b h i j - m) * V.data b h j d) *
          Real.exp (m - max m lm) + _ = _
      rw [Finset.sum_mul]
      rw [show (n + 1 + 1) * Bkv = (n + 1) * Bkv + Bkv by ring, Finset.sum_range_add]
      congr 1
      refine Finset.sum_congr rfl (fun j _ => ?_)
      rw [mul_right_comm, ← Real.exp_add]
      congr 2
      ring

lemma ceil_mul_of_dvd (e B : ℕ) (hB : 0 < B) (h : B ∣ e) :
    (e + B - 1) / B * B = e := by
  obtain ⟨k, rfl⟩ := h
  have h1 : B * k + B - 1 = B * k + (B - 1) := by omega
  rw [h1, Nat.mul_add_div hB, Nat.div_eq_of_lt (by omega)]
  ring

lemma div_div_div_same (A B c : ℝ) (hc : c ≠ 0) : A / c / (B / c) = A / B := by
  rcases eq_or_ne B 0 with rfl | hB
  · simp
  · field_simp

/-- The fully-unrolled state of the inner loop for query row `i`, in terms of
the unshifted scores: there is a running max `m` with
`denom = (∑ exp S) / exp m` and `acc = (∑ exp S * V) / exp m`, the sums
running over all visited key columns `0 ≤ j < (i / Bq + 1) * Bq`. -/
lemma attnFwdState_spec (Q K V : Tensor4) (scale : ℝ) (Bq Bkv b h i : ℕ)
    (hBq : 0 < Bq) (hBkv : 0 < Bkv) (hdvd : Bkv ∣ Bq) :
    ∃ m : ℝ, (attnFwdState Q K V scale Bq Bkv b h i).sMax = some m ∧
      (attnFwdState Q K V scale Bq Bkv b h i).denom =
        (∑ j ∈ Finset.range ((i / Bq + 1) * Bq),
          Real.exp (attnScore Q K scale b h i j)) / Real.exp m ∧
      ∀ d, (attnFwdState Q K V scale Bq Bkv b h i).acc d =
        (∑ j ∈ Finset.range ((i / Bq + 1) * Bq),
          Real.exp (attnScore Q K scale b h i j) * V.data b h j d) / Real.exp m := by
  have hstate : attnFwdState Q K V scale Bq Bkv b h i =
      attnFwdLoopN Q K V scale Bkv b h i (((i / Bq + 1) * Bq + Bkv - 1) / Bkv) := rfl
  have he : 0 < (i / Bq + 1) * Bq := by positivity
  have hn : 0 < ((i / Bq + 1) * Bq + Bkv - 1) / Bkv := by
    rw [lt_ceilDiv_iff _ _ _ hBkv]
    simpa using he
  obtain ⟨k, hk⟩ := Nat.exists_eq_succ_of_ne_zero (Nat.pos_iff_ne_zero.mp hn)
  have hc : (k + 1) * Bkv = (i / Bq + 1) * Bq := by
    have := ceil_mul_of_dvd ((i / Bq + 1) * Bq) Bkv hBkv (hdvd.mul_left _)
    rw [hk] at this
    exact this
  obtain ⟨m, hs, hd, ha⟩ := attnFwdLoopN_spec Q K V scale Bkv b h i k
  refine ⟨m, ?_, ?_, ?_⟩
  · rw [hstate, hk]
    exact hs
  · rw [hstate, hk, hd, hc]
    simp_rw [Real.exp_sub, ← Finset.sum_div]
  · intro d
    rw [hstate, hk, ha d, hc]
    simp_rw [Real.exp_sub, div_mul_eq_mul_div, ← Finset.sum_div]

/-- Closed form of the value `_attn_fwd` writes to `O[b, h, i, d]`: the
softmax-weighted aggregation of the value rows over all visited key columns,
with the sentinel-masked scores `attnScore`. -/
lemma attnO_closed (Q K V : Tensor4) (scale : ℝ) (Bq Bkv b h i d : ℕ)
    (hBq : 0 < Bq) (hBkv : 0 < Bkv) (hdvd : Bkv ∣ Bq) :
    attnO Q K V scale Bq Bkv b h i d =
      (∑ j ∈ Finset.range ((i / Bq + 1) * Bq),
        Real.exp (attnScore Q K scale b h i j) * V.data b h j d) /
      (∑ j ∈ Finset.range ((i / Bq + 1) * Bq),
        Real.exp (attnScore Q K scale b h i j)) := by
  obtain ⟨m, _, hd, ha⟩ := attnFwdState_spec Q K V scale Bq Bkv b h i hBq hBkv hdvd
  rw [attnO, hd, ha d, div_div_div_same _ _ _ (Real.exp_ne_zero m)]

/-- Closed form of the value `_attn_fwd` writes to `M[b, h, i]`: the
log-sum-exp of the sentinel-masked scores of all visited key columns. -/
lemma attnM_closed (Q K V : Tensor4) (scale : ℝ) (Bq Bkv b h i : ℕ)
    (hBq : 0 < Bq) (hBkv : 0 < Bkv) (hdvd : Bkv ∣ Bq) :
    attnM Q K V scale Bq Bkv b h i =
      Real.log (∑ j ∈ Finset.range ((i / Bq + 1) * Bq),
        Real.exp (attnScore Q K scale b h i j)) := by
  obtain ⟨m, hs, hd, _⟩ := attnFwdState_spec Q K V scale Bq Bkv b h i hBq hBkv hdvd
  have he : 0 < (i / Bq + 1) * Bq := by positivity
  have hpos : 0 < ∑ j ∈ Finset.range ((i / Bq + 1) * Bq),
      Real.exp (attnScore Q K scale b h i j) :=
    Finset.sum_pos (fun j _ => Real.exp_pos _) ⟨0, Finset.mem_range.mpr he⟩
  rw [attnM, hs, hd, Option.getD_some,
    Real.log_div (ne_of_gt hpos) (Real.exp_ne_zero m), Real.log_exp]
  ring

lemma kvStarts_pairwise (e B : ℕ) (hB : 0 < B) :
    (kvStarts e B).Pairwise (· < ·) := by
  unfold kvStarts
  rw [List.pairwise_map]
  exact (List.pairwise_lt_range _).imp (fun h =>
    (Nat.mul_lt_mul_right hB).mpr h)

lemma kvStarts_head (e B : ℕ) (hB : 0 < B) (he : 0 < e) :
    (kvStarts e B).head? = some 0 := by
  unfold kvStarts
  have hn : 0 < (e + B - 1) / B := by
    rw [Nat.lt_iff_add_one_le, Nat.le_div_iff_mul_le hB]
    omega
  obtain ⟨k, hk⟩ := Nat.exists_eq_succ_of_ne_zero (Nat.pos_iff_ne_zero.mp hn)
  rw [hk, List.range_succ_eq_map]
  simp

lemma kvStarts_mem (e B s : ℕ) (hB : 0 < B) :
    s ∈ kvStarts e B ↔ B ∣ s ∧ s < e := by
  unfold kvStarts
  simp only [List.mem_map, List.mem_range]
  constructor
  · rintro ⟨a, ha, rfl⟩
    exact ⟨Dvd.intro a (mul_comm B a), (lt_ceilDiv_iff B e a hB).mp ha⟩
  · rintro ⟨⟨c, rfl⟩, hlt⟩
    exact ⟨c, (lt_ceilDiv_iff B e c hB).mpr (by rwa [mul_comm]),
      by rw [mul_comm]⟩

/-! Concrete inputs used by counterexamples and witnesses. -/

/-- Concrete tensor of shape `(1, 1, 2, 1)`, contiguous, all-zero data
(a valid `Q`, `K` or `V`). -/
def cQ : Tensor4 :=
  { batch := 1, heads := 1, seqLen := 2, headDim := 1
    strides := (2, 2, 1, 1), data := fun _ _ _ _ => 0 }

/-- Concrete value tensor of shape `(1, 1, 2, 1)`: row 1 holds 1, all other
rows hold 0.  It agrees with `cQ` on every row below row 1. -/
def cV1 : Tensor4 :=
  { batch := 1, heads := 1, seqLen := 2, headDim := 1
    strides := (2, 2, 1, 1), data := fun _ _ j _ => if j = 1 then 1 else 0 }

/-- Concrete tensor of shape `(1, 1, 4, 1)`, contiguous, all-zero data. -/
def cQ4 : Tensor4 :=
  { batch := 1, heads := 1, seqLen := 4, headDim := 1
    strides := (4, 4, 1, 1), data := fun _ _ _ _ => 0 }

/-- Concrete value tensor of shape `(1, 1, 4, 1)`: row 3 holds 1, all other
rows hold 0. -/
def cV4 : Tensor4 :=
  { batch := 1, heads := 1, seqLen := 4, headDim := 1
    strides := (4, 4, 1, 1), data := fun _ _ j _ => if j = 3 then 1 else 0 }

/-- Concrete tensor of shape `(1, 1, 1, 1)`, contiguous, all-zero data. -/
def cQ1 : Tensor4 :=
  { batch := 1, heads := 1, seqLen := 1, headDim := 1
    strides := (1, 1, 1, 1), data := fun _ _ _ _ => 0 }

/-- Concrete rank-3 tensor of shape `(1, 1, 2)` (an `M`). -/
def cM : Tensor3 :=
  { batch := 1, heads := 1, seqLen := 2, strides := (2, 2, 1)
    data := fun _ _ _ => 0 }

/-- Concrete rank-3 tensor of shape `(1, 1, 1)`. -/
def cM1 : Tensor3 :=
  { batch := 1, heads := 1, seqLen := 1, strides := (1, 1, 1)
    data := fun _ _ _ => 0 }

/-- A saved context whose tensors all have shape `(1, 1, 2, 1)` and matching
contiguous strides: it passes both `backward` assertions. -/
def cCtx : AutogradCtx :=
  { savedQ := cQ, savedK := cQ, savedV := cQ, savedO := cQ
    savedM := cM, softmaxScale := 1 }

/-- A saved context whose tensors all have shape `(1, 1, 1, 1)` and matching
contiguous strides. -/
def cCtx1 : AutogradCtx :=
  { savedQ := cQ1, savedK := cQ1, savedV := cQ1, savedO := cQ1
    savedM := cM1, softmaxScale := 1 }

/-- A concrete `K`/`V` of shape `(1, 1, 1, 1)`: same head_dim as `cQ` but a
different sequence length. -/
def cK9 : Tensor4 :=
  { batch := 1, heads := 1, seqLen := 1, headDim := 1
    strides := (1, 1, 1, 1), data := fun _ _ _ _ => 0 }

/-- Concrete `O` for the preprocessing kernel: shape `(2, 2, 1, 1)`, all
entries 1. -/
def cO6 : Tensor4 :=
  { batch := 2, heads := 2, seqLen := 1, headDim := 1
    strides := (2, 1, 1, 1), data := fun _ _ _ _ => 1 }

/-- Concrete `dO` for the preprocessing kernel: same shape as `cO6`, all
entries 2. -/
def cdO6 : Tensor4 :=
  { batch := 2, heads := 2, seqLen := 1, headDim := 1
    strides := (2, 1, 1, 1), data := fun _ _ _ _ => 2 }

lemma score_cQ_00 : attnScore cQ cQ 1 0 0 0 0 = 0 := by
  simp [attnScore, cQ]

lemma score_cQ_01 : attnScore cQ cQ 1 0 0 0 1 = -fwdInf := by
  simp [attnScore, cQ]

lemma denomSum_cQ :
    ∑ j ∈ Finset.range ((0 / 2 + 1) * 2), Real.exp (attnScore cQ cQ 1 0 0 0 j) =
      1 + Real.exp (-fwdInf) := by
  norm_num [Finset.sum_range_succ, score_cQ_00, score_cQ_01]

lemma attnO_cQ_cV1 :
    attnO cQ cQ cV1 1 2 2 0 0 0 0 = Real.exp (-fwdInf) / (1 + Real.exp (-fwdInf)) := by
  rw [attnO_closed cQ cQ cV1 1 2 2 0 0 0 0 (by decide) (by decide) ⟨1, rfl⟩, denomSum_cQ]
  norm_num [Finset.sum_range_succ, score_cQ_00, score_cQ_01, cV1]

lemma attnO_cQ_cQ : attnO cQ cQ cQ 1 2 2 0 0 0 0 = 0 := by
  rw [attnO_closed cQ cQ cQ 1 2 2 0 0 0 0 (by decide) (by decide) ⟨1, rfl⟩]
  norm_num [Finset.sum_range_succ, cQ]

lemma attnM_cQ : attnM cQ cQ cV1 1 2 2 0 0 0 = Real.log (1 + Real.exp (-fwdInf)) := by
  rw [attnM_closed cQ cQ cV1 1 2 2 0 0 0 (by decide) (by decide) ⟨1, rfl⟩, denomSum_cQ]

/-! Claim theorems. -/

/-- C1, counterexample.  At a concrete input (all-zero `Q`, `K`; `V` whose
row 1 is 1; scale 1; block sizes 2) the forward pass output at
`O[0, 0, 0, 0]` differs from the reference computation
`softmax(causal_mask(Q @ K^T * scale)) @ V`: the finite sentinel leaves
weight `exp(-1e6) > 0` on the masked position `j = 1 > i = 0`, so in exact
arithmetic the two values are not equal. -/
theorem C1_counterexample :
    (forwardO cQ cQ cV1 1 2 2).data 0 0 0 0 ≠ refAttnO cQ cQ cV1 1 0 0 0 0 := by
  have hker : (forwardO cQ cQ cV1 1 2 2).data 0 0 0 0 =
      Real.exp (-fwdInf) / (1 + Real.exp (-fwdInf)) := attnO_cQ_cV1
  have href : refAttnO cQ cQ cV1 1 0 0 0 0 = 0 := by
    norm_num [refAttnO, Finset.sum_range_one, cV1]
  rw [hker, href]
  have h1 : (0 : ℝ) < 1 + Real.exp (-fwdInf) := by positivity
  exact div_ne_zero (Real.exp_ne_zero _) (ne_of_gt h1)

/-- C1, amended.  For matching head dims, positive scale, positive block
sizes with `BLOCK_SIZE_KV` dividing `BLOCK_SIZE_Q`, the forward pass
succeeds, returns `forwardOut`, and each output entry `O[b, h, i, d]` is the
softmax-weighted aggregation of the value rows over the visited key columns
`0 ≤ j < (i / Bq + 1) * Bq`, where masked positions `j > i` enter with the
finite sentinel `-1e6` added to their score (rather than being dropped, as
true `-inf` masking would do). -/
theorem C1_forward_is_sentinel_masked_softmax (Q K V : Tensor4) (scale : ℝ)
    (Bq Bkv b h i d : ℕ) (hscale : 0 < scale) (hBq : 0 < Bq) (hBkv : 0 < Bkv)
    (hdvd : Bkv ∣ Bq) (hQK : Q.headDim = K.headDim) (hKV : K.headDim = V.headDim) :
    FlashAttention.forward Q K V scale Bq Bkv =
      Except.ok (forwardOut Q K V scale Bq Bkv) ∧
    (forwardO Q K V scale Bq Bkv).data b h i d =
      (∑ j ∈ Finset.range ((i / Bq + 1) * Bq),
        Real.exp (attnScore Q K scale b h i j) * V.data b h j d) /
      (∑ j ∈ Finset.range ((i / Bq + 1) * Bq),
        Real.exp (attnScore Q K scale b h i j)) := by
  constructor
  · simp [FlashAttention.forward, headDimAssert, hQK, hKV]
  · exact attnO_closed Q K V scale Bq Bkv b h i d hBq hBkv hdvd

/-- C1, witness for the amended theorem at the concrete input of the
counterexample. -/
theorem C1_forward_is_sentinel_masked_softmax_witness :
    FlashAttention.forward cQ cQ cV1 1 2 2 = Except.ok (forwardOut cQ cQ cV1 1 2 2) ∧
    (forwardO cQ cQ cV1 1 2 2).data 0 0 0 0 =
      (∑ j ∈ Finset.range ((0 / 2 + 1) * 2),
        Real.exp (attnScore cQ cQ 1 0 0 0 j) * cV1.data 0 0 j 0) /
      (∑ j ∈ Finset.range ((0 / 2 + 1) * 2),
        Real.exp (attnScore cQ cQ 1 0 0 0 j)) :=
  C1_forward_is_sentinel_masked_softmax cQ cQ cV1 1 2 2 0 0 0 0
    one_pos (by decide) (by decide) ⟨1, rfl⟩ rfl rfl

/-- C2: evaluated at a concrete valid input (all tensors of shape
`(1, 1, 1, 1)` with matching contiguous strides, so both assertions pass),
`FlashAttention.backward` raises `TypeError` at line 85 (`Q.shape(3)`) and
never returns the gradient triple `(dQ, dK, dV)` — the dK/dV kernel is an
empty stub and no dQ kernel exists. -/
theorem C2_backward_never_returns_gradients :
    FlashAttention.backward cCtx1 cQ1 = Except.error PyErr.typeError := by
  simp [FlashAttention.backward, bwdAsserts, cCtx1, cQ1, Tensor4.isContiguous,
    sizeCall, Except.bind]

/-- C3, counterexample.  Two value tensors that agree on every row `j ≤ 0`
(they differ only at row `1 > 0`) give different forward outputs at row 0:
through the finite sentinel, key/value row `j = 1 > i = 0` influences output
row 0 in exact arithmetic. -/
theorem C3_counterexample :
    cQ.data 0 0 0 0 = cV1.data 0 0 0 0 ∧
    (forwardO cQ cQ cQ 1 2 2).data 0 0 0 0 ≠ (forwardO cQ cQ cV1 1 2 2).data 0 0 0 0 := by
  constructor
  · norm_num [cQ, cV1]
  · have h0 : (forwardO cQ cQ cQ 1 2 2).data 0 0 0 0 = 0 := attnO_cQ_cQ
    have h1 : (forwardO cQ cQ cV1 1 2 2).data 0 0 0 0 =
        Real.exp (-fwdInf) / (1 + Real.exp (-fwdInf)) := attnO_cQ_cV1
    rw [h0, h1]
    have hp : (0 : ℝ) < 1 + Real.exp (-fwdInf) := by positivity
    exact fun hEq => div_ne_zero (Real.exp_ne_zero _) (ne_of_gt hp) hEq.symm

/-- C3, amended.  Output row `i` depends only on `Q` and on the key/value
rows the kernel visits, i.e. rows `j < (i / Bq + 1) * Bq`: perturbing any
key/value row at or beyond that bound never changes output row `i`.  (Rows
`i < j < (i / Bq + 1) * Bq` can influence row `i` through the sentinel, as
the counterexample shows.) -/
theorem C3_noninterference_beyond_visited_blocks (Q K V K' V' : Tensor4)
    (scale : ℝ) (Bq Bkv b h i d : ℕ) (hBq : 0 < Bq) (hBkv : 0 < Bkv)
    (hdvd : Bkv ∣ Bq)
    (hK : ∀ j < (i / Bq + 1) * Bq, ∀ d', K.data b h j d' = K'.data b h j d')
    (hV : ∀ j < (i / Bq + 1) * Bq, ∀ d', V.data b h j d' = V'.data b h j d') :
    (forwardO Q K V scale Bq Bkv).data b h i d =
      (forwardO Q K' V' scale Bq Bkv).data b h i d := by
  show attnO Q K V scale Bq Bkv b h i d = attnO Q K' V' scale Bq Bkv b h i d
  rw [attnO_closed Q K V scale Bq Bkv b h i d hBq hBkv hdvd,
    attnO_closed Q K' V' scale Bq Bkv b h i d hBq hBkv hdvd]
  have hS : ∀ j ∈ Finset.range ((i / Bq + 1) * Bq),
      attnScore Q K scale b h i j = attnScore Q K' scale b h i j := by
    intro j hj
    unfold attnScore
    congr 2
    exact Finset.sum_congr rfl (fun d' _ => by rw [hK j (Finset.mem_range.mp hj) d'])
  congr 1
  · refine Finset.sum_congr rfl (fun j hj => ?_)
    rw [hS j hj, hV j (Finset.mem_range.mp hj) d]
  · exact Finset.sum_congr rfl (fun j hj => by rw [hS j hj])

/-- C3, witness: with sequence length 4 and block sizes 2, replacing value
row 3 (beyond the visited bound 2 of row 0) leaves output row 0 unchanged. -/
theorem C3_noninterference_beyond_visited_blocks_witness :
    (forwardO cQ4 cQ4 cQ4 1 2 2).data 0 0 0 0 =
      (forwardO cQ4 cQ4 cV4 1 2 2).data 0 0 0 0 :=
  C3_noninterference_beyond_visited_blocks cQ4 cQ4 cQ4 cQ4 cV4 1 2 2 0 0 0 0
    (by decide) (by decide) ⟨1, rfl⟩
    (fun j hj d' => rfl)
    (fun j hj d' => by
      have hne : j ≠ 3 := by omega
      simp [cQ4, cV4, hne])

/-- C4, counterexample.  At the concrete input of C1, the sum of
`exp(S_row - M_row)` over the valid (unmasked) key positions of row 0
(just `j = 0`) is `1 / (1 + exp(-1e6))`, which is not 1: the stored `M`
also counts the sentinel-masked visited positions. -/
theorem C4_counterexample :
    ∑ j ∈ Finset.range 1,
      Real.exp (rawScore cQ cQ 1 0 0 0 j - attnM cQ cQ cV1 1 2 2 0 0 0) ≠ 1 := by
  have hraw : rawScore cQ cQ 1 0 0 0 0 = 0 := by
    simp [rawScore, cQ]
  have hpos : (0 : ℝ) < 1 + Real.exp (-fwdInf) := by positivity
  rw [Finset.sum_range_one, hraw, attnM_cQ, zero_sub, Real.exp_neg,
    Real.exp_log hpos]
  have hlt : (1 + Real.exp (-fwdInf))⁻¹ < 1 := by
    rw [inv_lt_one_iff₀]
    right
    nlinarith [Real.exp_pos (-fwdInf)]
  exact ne_of_lt hlt

/-- C4, amended.  The stored log-normaliser `M[b, h, i]` (defined as
`running_max + log(running_sum)`, see `attnM`) equals the log-sum-exp of the
sentinel-masked scores over all VISITED key columns `j < (i / Bq + 1) * Bq`
(masked positions included, carrying the `-1e6` sentinel), and the sum of
`exp(S_j - M)` over those visited columns is exactly 1. -/
theorem C4_M_is_logsumexp_of_visited (Q K V : Tensor4) (scale : ℝ)
    (Bq Bkv b h i : ℕ) (hBq : 0 < Bq) (hBkv : 0 < Bkv) (hdvd : Bkv ∣ Bq) :
    attnM Q K V scale Bq Bkv b h i =
      Real.log (∑ j ∈ Finset.range ((i / Bq + 1) * Bq),
        Real.exp (attnScore Q K scale b h i j)) ∧
    ∑ j ∈ Finset.range ((i / Bq + 1) * Bq),
      Real.exp (attnScore Q K scale b h i j - attnM Q K V scale Bq Bkv b h i) = 1 := by
  have hM := attnM_closed Q K V scale Bq Bkv b h i hBq hBkv hdvd
  refine ⟨hM, ?_⟩
  have he : 0 < (i / Bq + 1) * Bq := by positivity
  have hpos : 0 < ∑ j ∈ Finset.range ((i / Bq + 1) * Bq),
      Real.exp (attnScore Q K scale b h i j) :=
    Finset.sum_pos (fun j _ => Real.exp_pos _) ⟨0, Finset.mem_range.mpr he⟩
  simp_rw [Real.exp_sub, hM, Real.exp_log hpos, ← Finset.sum_div]
  exact div_self (ne_of_gt hpos)

/-- C4, witness for the amended theorem at the concrete input of the
counterexample. -/
theorem C4_M_is_logsumexp_of_visited_witness :
    attnM cQ cQ cV1 1 2 2 0 0 0 =
      Real.log (∑ j ∈ Finset.range ((0 / 2 + 1) * 2),
        Real.exp (attnScore cQ cQ 1 0 0 0 j)) ∧
    ∑ j ∈ Finset.range ((0 / 2 + 1) * 2),
      Real.exp (attnScore cQ cQ 1 0 0 0 j - attnM cQ cQ cV1 1 2 2 0 0 0) = 1 :=
  C4_M_is_logsumexp_of_visited cQ cQ cV1 1 2 2 0 0 0 (by decide) (by decide) ⟨1, rfl⟩

/-- C5, counterexample.  At a concrete valid input, the value
`FlashAttention.forward` returns to the caller is the single tensor `O`
(line 64, `return O`), not a tuple: the pair `(O, M)` is not returned. -/
theorem C5_counterexample :
    (FlashAttention.forward cQ cQ cV1 1 2 2).map (fun r => PyVal.isTuple r.ret) =
      Except.ok false ∧
    (FlashAttention.forward cQ cQ cV1 1 2 2).map FwdOut.ret =
      Except.ok (PyVal.tensor4 (forwardO cQ cQ cV1 1 2 2)) := by
  constructor <;>
    simp [FlashAttention.forward, headDimAssert, cQ, cV1, forwardOut,
      PyVal.isTuple, Except.map]

/-- C5, amended.  For matching head dims, `forward` succeeds and returns the
tensor `O` alone; `M` is not part of the return value but is saved in the
autograd context (`ctx.save_for_backward`, lines 61-63) together with
`Q, K, V, O` for the backward pass. -/
theorem C5_forward_returns_O_and_saves_M (Q K V : Tensor4) (scale : ℝ)
    (Bq Bkv : ℕ) (hQK : Q.headDim = K.headDim) (hKV : K.headDim = V.headDim) :
    FlashAttention.forward Q K V scale Bq Bkv =
      Except.ok (forwardOut Q K V scale Bq Bkv) ∧
    (forwardOut Q K V scale Bq Bkv).ret =
      PyVal.tensor4 (forwardO Q K V scale Bq Bkv) ∧
    (forwardOut Q K V scale Bq Bkv).ctx.savedM = forwardM Q K V scale Bq Bkv ∧
    (forwardOut Q K V scale Bq Bkv).ctx.savedQ = Q := by
  refine ⟨?_, rfl, rfl, rfl⟩
  simp [FlashAttention.forward, headDimAssert, hQK, hKV]

/-- C5, witness for the amended theorem. -/
theorem C5_forward_returns_O_and_saves_M_witness :
    FlashAttention.forward cQ cQ cV1 1 2 2 = Except.ok (forwardOut cQ cQ cV1 1 2 2) ∧
    (forwardOut cQ cQ cV1 1 2 2).ret = PyVal.tensor4 (forwardO cQ cQ cV1 1 2 2) ∧
    (forwardOut cQ cQ cV1 1 2 2).ctx.savedM = forwardM cQ cQ cV1 1 2 2 ∧
    (forwardOut cQ cQ cV1 1 2 2).ctx.savedQ = cQ :=
  C5_forward_returns_O_and_saves_M cQ cQ cV1 1 2 2 rfl rfl

/-- C6: the preprocessing kernel does not compute `rowsum(O * dO)` at
position `(batch, head, row)` of `D`.  At `O = 1`, `dO = 2` (head_dim 1) the
kernel's row value is `1` (both `tl.load(offs_o)` calls read the same
offsets, so it squares `O` and never reads `dO`) while `rowsum(O * dO) = 2`;
and for `batch = 1, head = 0, row = 0` with `NUM_HEADS = 2` and contiguous
`D`-strides `(2, 1)`, the store offset uses `batch_head_idx` in place of the
head index, landing at flat offset 4 instead of 2 (out of bounds for the
4-element `D`). -/
theorem C6_preprocess_code_bug :
    attnBwdPreprocessVal cO6 cdO6 1 0 0 0 ≠
      ∑ d ∈ Finset.range 1, cO6.data 0 0 0 d * cdO6.data 0 0 0 d ∧
    attnBwdPreprocessStoreOff 2 1 2 1 0 0 ≠ offset3 2 1 1 0 0 := by
  constructor
  · norm_num [attnBwdPreprocessVal, cO6, cdO6]
  · decide

/-- C7: the forward kernel's inner loop visits key/value block start offsets
in strictly ascending order, starting at 0; the visited set is exactly the
multiples of `BLOCK_SIZE_KV` below `(q + 1) * BLOCK_SIZE_Q`; and the
diagonal block (the block containing key column `q * BLOCK_SIZE_Q`) is
visited, with nothing at or beyond the bound. -/
theorem C7_kv_block_iteration (q Bq Bkv : ℕ) (hBq : 0 < Bq) (hBkv : 0 < Bkv) :
    (kvStarts ((q + 1) * Bq) Bkv).Pairwise (· < ·) ∧
    (kvStarts ((q + 1) * Bq) Bkv).head? = some 0 ∧
    (∀ s, s ∈ kvStarts ((q + 1) * Bq) Bkv ↔ Bkv ∣ s ∧ s < (q + 1) * Bq) ∧
    q * Bq / Bkv * Bkv ∈ kvStarts ((q + 1) * Bq) Bkv := by
  refine ⟨kvStarts_pairwise _ _ hBkv,
    kvStarts_head _ _ hBkv (by positivity),
    fun s => kvStarts_mem _ _ s hBkv, ?_⟩
  rw [kvStarts_mem _ _ _ hBkv]
  refine ⟨dvd_mul_left _ _, lt_of_le_of_lt (Nat.div_mul_le_self _ _) ?_⟩
  exact (Nat.mul_lt_mul_right hBq).mpr (Nat.lt_succ_self q)

/-- C7, witness at `q = 1`, block sizes 2 (the membership clause is
instantiated at offset 2). -/
theorem C7_kv_block_iteration_witness :
    (kvStarts ((1 + 1) * 2) 2).Pairwise (· < ·) ∧
    (kvStarts ((1 + 1) * 2) 2).head? = some 0 ∧
    (2 ∈ kvStarts ((1 + 1) * 2) 2 ↔ 2 ∣ 2 ∧ 2 < (1 + 1) * 2) ∧
    1 * 2 / 2 * 2 ∈ kvStarts ((1 + 1) * 2) 2 :=
  have h := C7_kv_block_iteration 1 2 2 (by decide) (by decide)
  ⟨h.1, h.2.1, h.2.2.1 2, h.2.2.2⟩

/-- C9, counterexample.  `cQ` has sequence length 2 while `cK9` has sequence
length 1 — a shape violation in the batch/head/seq dimensions — yet
`forward` makes no check beyond head_dim equality and proceeds to the kernel
launch, returning a result instead of aborting. -/
theorem C9_counterexample :
    cQ.seqLen ≠ cK9.seqLen ∧
    FlashAttention.forward cQ cK9 cK9 1 2 2 =
      Except.ok (forwardOut cQ cK9 cK9 1 2 2) := by
  constructor
  · decide
  · simp [FlashAttention.forward, headDimAssert, cQ, cK9]

/-- C9, amended.  The only precondition checks are: in `forward`, head_dim
equality across `Q, K, V` (lines 8-9); in `backward`, `dO` contiguity and
the stride chain `Q == K == V == O == dO` (lines 76-77).  Each detected
violation aborts the call with `AssertionError` before any allocation or
kernel launch (the error result carries no tensors, so no partial output is
returned); mismatched batch, head, or sequence dimensions are not detected. -/
theorem C9_only_asserted_violations_abort (Q K V : Tensor4) (scale : ℝ)
    (Bq Bkv : ℕ) (ctx : AutogradCtx) (dO : Tensor4) :
    (FlashAttention.forward Q K V scale Bq Bkv = Except.error PyErr.assertionError ↔
      headDimAssert Q K V = false) ∧
    (FlashAttention.backward ctx dO = Except.error PyErr.assertionError ↔
      bwdAsserts ctx dO = false) := by
  constructor
  · cases hA : headDimAssert Q K V <;>
      simp [FlashAttention.forward, hA]
  · cases hA : bwdAsserts ctx dO <;>
      simp [FlashAttention.backward, hA, sizeCall, Except.bind]

/-- C10: for every saved context and `dO` that pass the stride assertions of
lines 76-77, `FlashAttention.backward` raises `TypeError` at line 85
(`Q.shape(3)` calls a `torch.Size`) before the dK/dV kernel can run, so the
backward entry point never produces gradient values for any input. -/
theorem C10_backward_always_raises (ctx : AutogradCtx) (dO : Tensor4)
    (hA : bwdAsserts ctx dO = true) :
    FlashAttention.backward ctx dO = Except.error PyErr.typeError := by
  simp [FlashAttention.backward, hA, sizeCall, Except.bind]

/-- C10, witness: a concrete context and `dO` passing both assertions. -/
theorem C10_backward_always_raises_witness :
    FlashAttention.backward cCtx cQ = Except.error PyErr.typeError :=
  C10_backward_always_raises cCtx cQ (by decide)
